import Mathlib

/-!
Shallow embedding of the browser-side `Timer` component
(`src/static/js/timer.js`) of the productivity-tracker repository, together
with the `LocalStorage` wrapper it persists through
(`src/unnamed/part_002`, lines 270-296).

Modelling decisions, each traceable to the source:
* Wall-clock epoch milliseconds are `Int`; every operation that reads
  `Date.now()` in the source takes the current time `now : Int` as an
  explicit argument.
* The `setInterval` handle held in `this.interval` is modelled as a
  `Bool` (`true` exactly when a recurring tick callback is scheduled);
  `clearInterval` + `this.interval = null` becomes setting it to `false`.
* `taskId` is `Option String` (`null` ↦ `none`).
* The persisted `timerState` record is a `Snapshot`; the single
  key-value slot of the store is carried in the state as
  `store : Option Snapshot` (`none` = no record / removed).
* JavaScript truthiness of `this.startTime` (`null` and `0` are falsy)
  is modelled by `startTimeTruthy`.
* The notification callbacks (`onTick`, `onStart`, `onStop`, `onPause`)
  are modelled as an emitted event list `List Ev`, in invocation order.
* `Date.now() - this.startTime` when `startTime` is `null` coerces
  `null` to `0` in JavaScript; `Option.getD 0` reproduces this.
-/

namespace TimerJs

/-- The persisted `timerState` record written by `Timer.saveState`:
`{startTime, elapsedTime, isRunning, taskId, timestamp}`. -/
structure Snapshot where
  startTime : Option Int
  elapsedTime : Int
  isRunning : Bool
  taskId : Option String
  timestamp : Int
  deriving DecidableEq, Repr

/-- The `Timer` instance fields together with the contents of the
external key-value slot it persists to (`store`). -/
structure TimerW where
  startTime : Option Int
  elapsedTime : Int
  isRunning : Bool
  interval : Bool
  taskId : Option String
  store : Option Snapshot
  deriving DecidableEq, Repr

/-- Notification-callback invocations, in order. -/
inductive Ev where
  | tickN (elapsed : Int)
  | startN (taskId : Option String)
  | stopN (taskId : Option String) (total : Int)
  | pauseN (taskId : Option String) (elapsed : Int)
  deriving DecidableEq, Repr

/-- JavaScript truthiness of the `startTime` field: `null` and `0` are
falsy, every other number is truthy. -/
def startTimeTruthy : Option Int → Bool
  | none => false
  | some t => t ≠ 0

/-- `Timer.saveState`: write the snapshot
`{startTime, elapsedTime, isRunning, taskId, timestamp: Date.now()}`
to the store (`LocalStorage.set('timerState', state)`). -/
def saveState (now : Int) (s : TimerW) : TimerW :=
  { s with store := some ⟨s.startTime, s.elapsedTime, s.isRunning, s.taskId, now⟩ }

/-- `Timer.clearState`: `LocalStorage.remove('timerState')`. -/
def clearState (s : TimerW) : TimerW :=
  { s with store := none }

/-- The body of the recurring `setInterval` callback scheduled by
`Timer.start` / `Timer.resumeTimer`:
`this.elapsedTime = Date.now() - this.startTime; this.onTick(this.elapsedTime); this.saveState()`. -/
def tick (now : Int) (s : TimerW) : TimerW × List Ev :=
  let e := now - s.startTime.getD 0
  let s1 := { s with elapsedTime := e }
  (saveState now s1, [Ev.tickN e])

/-- `Timer.start(taskId = null)`: returns `false` and does nothing when
already running; otherwise sets `taskId`,
`startTime = Date.now() - elapsedTime`, `isRunning = true`, schedules the
recurring tick, invokes `onStart(taskId)`, saves state, returns `true`. -/
def start (now : Int) (tid : Option String) (s : TimerW) : TimerW × Bool × List Ev :=
  if s.isRunning then (s, false, [])
  else
    let s1 := { s with
      taskId := tid
      startTime := some (now - s.elapsedTime)
      isRunning := true
      interval := true }
    (saveState now s1, true, [Ev.startN tid])

/-- `Timer.reset()`: clear every field to the idle defaults, cancel any
scheduled tick, invoke `onTick(0)`, delete the persisted snapshot. -/
def reset (s : TimerW) : TimerW × List Ev :=
  let s1 := { s with
    isRunning := false
    elapsedTime := 0
    startTime := none
    taskId := none
    interval := false }
  (clearState s1, [Ev.tickN 0])

/-- `Timer.stop()`: returns `false` and does nothing when not running;
otherwise clears `isRunning` and the interval, invokes
`onStop(taskId, totalTime)` with the current `elapsedTime`, then performs
a full `reset()` (which also emits `onTick(0)` and deletes the snapshot). -/
def stop (s : TimerW) : TimerW × Bool × List Ev :=
  if !s.isRunning then (s, false, [])
  else
    let s1 := { s with isRunning := false, interval := false }
    let total := s1.elapsedTime
    let r := reset s1
    (r.1, true, Ev.stopN s1.taskId total :: r.2)

/-- `Timer.pause()`: returns `false` and does nothing when not running;
otherwise clears `isRunning` and the interval, invokes
`onPause(taskId, elapsedTime)` with the current (last-tick) `elapsedTime`,
and saves state. -/
def pause (now : Int) (s : TimerW) : TimerW × Bool × List Ev :=
  if !s.isRunning then (s, false, [])
  else
    let s1 := { s with isRunning := false, interval := false }
    (saveState now s1, true, [Ev.pauseN s1.taskId s1.elapsedTime])

/-- `Timer.resume()`: returns `false` when already running; otherwise
delegates to `this.start(this.taskId)`. -/
def resume (now : Int) (s : TimerW) : TimerW × Bool × List Ev :=
  if s.isRunning then (s, false, [])
  else start now s.taskId s

/-- `Timer.resumeTimer()`: re-schedule the recurring tick when
`this.startTime && this.isRunning` (JavaScript truthiness). -/
def resumeTimer (s : TimerW) : TimerW :=
  if startTimeTruthy s.startTime && s.isRunning then { s with interval := true }
  else s

/-- `Timer.loadState`, after the store read has produced `got`:
`if (state && state.isRunning)` then, when the snapshot is younger than
24 hours, adopt `startTime`, `elapsedTime`, `isRunning`, `taskId`, and
when `this.isRunning && this.startTime` recompute
`elapsedTime = Date.now() - startTime`. No interval is scheduled. -/
def loadStateCore (now : Int) (got : Option Snapshot) (s : TimerW) : TimerW :=
  match got with
  | none => s
  | some st =>
    if st.isRunning then
      if now - st.timestamp < 24 * 60 * 60 * 1000 then
        let s1 := { s with
          startTime := st.startTime
          elapsedTime := st.elapsedTime
          isRunning := st.isRunning
          taskId := st.taskId }
        if s1.isRunning && startTimeTruthy s1.startTime then
          { s1 with elapsedTime := now - s1.startTime.getD 0 }
        else s1
      else s
    else s

/-- `LocalStorage.get` (src/unnamed/part_002): `try { parse } catch { return defaultValue }` —
an absent item, a raised storage error, or a corrupt (unparsable) record
all yield the default `null`, modelled by `none`. -/
def localStorageGet (raw : Option (Except String Snapshot)) : Option Snapshot :=
  match raw with
  | none => none
  | some (Except.error _) => none
  | some (Except.ok v) => some v

/-- `Timer.loadState()` as written: read the `timerState` record through
`LocalStorage.get` and feed the result to the adoption logic. -/
def loadState (now : Int) (raw : Option (Except String Snapshot)) (s : TimerW) : TimerW :=
  loadStateCore now (localStorageGet raw) s

/-- `Timer.constructor(options)`: every field is initialised to the idle
defaults, then `if (this.isRunning) { this.resumeTimer(); }` — `loadState`
is never invoked, so the guard reads the `isRunning = false` just
assigned. The store contents are untouched. -/
def construct (store : Option Snapshot) : TimerW :=
  let s : TimerW :=
    { startTime := none
      elapsedTime := 0
      isRunning := false
      interval := false
      taskId := none
      store := store }
  if s.isRunning then resumeTimer s else s

/-- JavaScript `String.prototype.padStart(n, c)`: left-pad to length `n`. -/
def padStart (n : Nat) (c : Char) (s : String) : String :=
  String.mk (List.replicate (n - s.length) c) ++ s

/-- `Timer.formatTime(milliseconds)`:
`seconds = floor(ms/1000)`, `hours = floor(seconds/3600)`,
`minutes = floor((seconds%3600)/60)`, `secs = seconds%60`, each of the
three rendered with `toString().padStart(2, '0')`, joined by `:`. -/
def formatTime (milliseconds : Nat) : String :=
  let seconds := milliseconds / 1000
  let hours := seconds / 3600
  let minutes := (seconds % 3600) / 60
  let secs := seconds % 60
  padStart 2 '0' (toString hours) ++ ":" ++ padStart 2 '0' (toString minutes)
    ++ ":" ++ padStart 2 '0' (toString secs)

end TimerJs

namespace TimerJs

/-! ## Reachability by the public operations

`Reach` closes the initial constructed state under the public operations
as the code defines them: `start` with an arbitrary (possibly null)
taskId, `pause`, `stop`, `resume`, `reset`, and the internal tick, which
can only fire while a recurring interval callback is scheduled.
Restore-on-load is the construction-time behaviour (`construct`). -/
inductive Reach : TimerW → Prop where
  | initS : Reach (construct none)
  | startS (now : Int) (tid : Option String) (s : TimerW) :
      Reach s → Reach (start now tid s).1
  | tickS (now : Int) (s : TimerW) :
      Reach s → s.interval = true → Reach (tick now s).1
  | pauseS (now : Int) (s : TimerW) : Reach s → Reach (pause now s).1
  | stopS (s : TimerW) : Reach s → Reach (stop s).1
  | resumeS (now : Int) (s : TimerW) : Reach s → Reach (resume now s).1
  | resetS (s : TimerW) : Reach s → Reach (reset s).1

/-- `ReachG` restricts `Reach` to the spec's precondition discipline:
`start` is only invoked with a non-null taskId, and `resume` only in a
Paused state (`running == false`, `elapsedMs > 0`). -/
inductive ReachG : TimerW → Prop where
  | initG : ReachG (construct none)
  | startG (now : Int) (tid : String) (s : TimerW) :
      ReachG s → ReachG (start now (some tid) s).1
  | tickG (now : Int) (s : TimerW) :
      ReachG s → s.interval = true → ReachG (tick now s).1
  | pauseG (now : Int) (s : TimerW) : ReachG s → ReachG (pause now s).1
  | stopG (s : TimerW) : ReachG s → ReachG (stop s).1
  | resumeG (now : Int) (s : TimerW) :
      ReachG s → s.isRunning = false → 0 < s.elapsedTime → ReachG (resume now s).1
  | resetG (s : TimerW) : ReachG s → ReachG (reset s).1

/-- Every `ReachG`-step is a `Reach`-step. -/
theorem reachG_sub (s : TimerW) (h : ReachG s) : Reach s := by
  induction h with
  | initG => exact Reach.initS
  | startG now tid s _ ih => exact Reach.startS now (some tid) s ih
  | tickG now s _ hint ih => exact Reach.tickS now s ih hint
  | pauseG now s _ ih => exact Reach.pauseS now s ih
  | stopG s _ ih => exact Reach.stopS s ih
  | resumeG now s _ _ _ ih => exact Reach.resumeS now s ih
  | resetG s _ ih => exact Reach.resetS s ih

/-- In every reachable state the `isRunning` flag agrees with the
presence of a scheduled interval. -/
theorem reach_running_eq_interval (s : TimerW) (h : Reach s) :
    s.isRunning = s.interval := by
  induction h with
  | initS => rfl
  | startS now tid s _ ih =>
    by_cases hr : s.isRunning
    · simpa [start, hr] using ih
    · simp [start, hr, saveState]
  | tickS now s _ _ ih => simpa [tick, saveState] using ih
  | pauseS now s _ ih =>
    by_cases hr : s.isRunning
    · simp [pause, hr, saveState]
    · simpa [pause, hr] using ih
  | stopS s _ ih =>
    by_cases hr : s.isRunning
    · simp [stop, hr, reset, clearState]
    · simpa [stop, hr] using ih
  | resumeS now s _ ih =>
    by_cases hr : s.isRunning
    · simpa [resume, hr] using ih
    · simp [resume, start, hr, saveState]
  | resetS s _ ih => simp [reset, clearState]

end TimerJs

namespace TimerJs

/-- Under the precondition discipline of `ReachG`, a null `taskId` only
occurs in the fully cleared idle state. -/
theorem reachG_taskId_inv (s : TimerW) (h : ReachG s) :
    s.taskId = none → s.isRunning = false ∧ s.elapsedTime = 0 ∧ s.startTime = none := by
  induction h with
  | initG => intro _; exact ⟨rfl, rfl, rfl⟩
  | startG now tid s hs ih =>
    by_cases hr : s.isRunning
    · simpa [start, hr] using ih
    · simp [start, hr, saveState]
  | tickG now s hs hint ih =>
    have hrun : s.isRunning = s.interval := reach_running_eq_interval s (reachG_sub s hs)
    intro htid
    have : s.isRunning = false := (ih (by simpa [tick, saveState] using htid)).1
    rw [hint] at hrun
    simp [this] at hrun
  | pauseG now s hs ih =>
    by_cases hr : s.isRunning
    · intro htid
      have : s.isRunning = false := (ih (by simpa [pause, hr, saveState] using htid)).1
      simp [hr] at this
    · simpa [pause, hr] using ih
  | stopG s hs ih =>
    by_cases hr : s.isRunning
    · simp [stop, hr, reset, clearState]
    · simpa [stop, hr] using ih
  | resumeG now s hs hrun hel ih =>
    intro htid
    have htid0 : s.taskId = none := by
      by_contra hne
      rcases Option.ne_none_iff_exists.mp hne with ⟨t, ht⟩
      simp [resume, start, hrun, saveState, ← ht] at htid
    have := (ih htid0).2.1
    omega
  | resetG s hs ih => simp [reset, clearState]

end TimerJs

namespace TimerJs

/-- C1 (code bug): the spec requires restore-on-load to run at
construction, but `Timer.constructor` never invokes `loadState` — its
`if (this.isRunning) resumeTimer()` guard reads the `false` it just
assigned. With a persisted snapshot `{startTime: 1000, elapsedMs: 3000,
running: true, taskId: "T1", savedTimestamp: 90000000}` and
`now = 90003600` (age 3600 ms < 24 h) the constructed timer is still
fully idle (`running = false`, `elapsedMs = 0`, no interval), not
`running = true` with `elapsedMs = now − 1000`; moreover even a direct
`loadState` call would adopt the fields without rescheduling the tick
interval. -/
theorem construct_ignores_snapshot_c1 :
    let snap : Snapshot := ⟨some 1000, 3000, true, some "T1", 90000000⟩
    let t : TimerW := construct (some snap)
    ((90003600 : Int) - snap.timestamp < 24 * 60 * 60 * 1000 ∧ snap.isRunning = true) ∧
    t.isRunning = false ∧ t.elapsedTime = 0 ∧ t.startTime = none ∧
    t.interval = false ∧ t.taskId = none ∧
    (loadStateCore 90003600 (some snap) t).isRunning = true ∧
    (loadStateCore 90003600 (some snap) t).interval = false := by
  decide

/-- The scenario of the spec's walkthrough: `start("T1")` at epoch 1000,
ticks at 2000, 3000 and the tick of interest at 4000. -/
def scenTick4000 : TimerW × List Ev :=
  tick 4000 (tick 3000 (tick 2000 (start 1000 (some "T1") (construct none)).1).1).1

/-- Scenario continued: `pause()` at epoch 4500. -/
def scenPause4500 : TimerW × Bool × List Ev := pause 4500 scenTick4000.1

/-- Scenario continued: `resume()` at epoch 5000. -/
def scenResume5000 : TimerW × Bool × List Ev := resume 5000 scenPause4500.1

/-- Scenario continued: ticks at 6000 and the tick of interest at 7000. -/
def scenTick7000 : TimerW × List Ev := tick 7000 (tick 6000 scenResume5000.1).1

/-- C2 (counterexample): in the spec's scenario — start at epoch 1000,
ticks through epoch 4000, `pause()` at 4500, `resume()` at 5000, tick at
7000 — the pause-notification receives 3000 (the last tick value; `pause`
does not recompute elapsed time), not 3500; after resume
`startTimeEpochMs = 2000`, not 1500; and the tick at 7000 reports 5000,
not 5500. -/
theorem scenario_c2_counterexample :
    scenTick4000.2 = [Ev.tickN 3000] ∧
    scenPause4500.2.2 = [Ev.pauseN (some "T1") 3000] ∧
    ¬scenPause4500.2.2 = [Ev.pauseN (some "T1") 3500] ∧
    scenResume5000.1.startTime = some 2000 ∧
    ¬scenResume5000.1.startTime = some 1500 ∧
    scenTick7000.2 = [Ev.tickN 5000] ∧
    ¬scenTick7000.2 = [Ev.tickN 5500] := by
  decide

/-- C2 (amended): same scenario with the values the code actually
produces — the tick at 4000 notifies 3000; `pause()` at 4500 notifies
3000 (the elapsed value frozen at the last tick, since `pause` passes
`this.elapsedTime` without recomputing) and leaves `running = false`;
`resume()` at 5000 yields `startTimeEpochMs = 5000 − 3000 = 2000`; the
tick at 7000 notifies 5000. -/
theorem scenario_c2_amended :
    scenTick4000.2 = [Ev.tickN 3000] ∧
    scenPause4500.2.2 = [Ev.pauseN (some "T1") 3000] ∧
    scenPause4500.1.isRunning = false ∧
    scenResume5000.1.startTime = some 2000 ∧
    scenTick7000.2 = [Ev.tickN 5000] := by
  decide

/-- C3 (counterexample): `stop()` called on a paused timer (reached by
start at 1000, tick at 4000, pause at 4500) is a no-op returning
`false`: afterwards `elapsedMs = 3000 ≠ 0`, `taskId = "T1" ≠ null`, and
the persisted snapshot is still in the store — so not every call to
`stop()` clears the state. -/
theorem stop_c3_counterexample :
    let p := (pause 4500 (tick 4000 (start 1000 (some "T1") (construct none)).1).1).1
    (stop p).2.1 = false ∧
    (stop p).1.elapsedTime = 3000 ∧ ¬(stop p).1.elapsedTime = 0 ∧
    (stop p).1.taskId = some "T1" ∧
    ¬(stop p).1.store = none := by
  decide

/-- C3 (amended): every call to `stop()` in the Running state succeeds
and results in `elapsedMs = 0`, `taskId = null`, `running = false`, no
scheduled interval, and deletion of the persisted snapshot. -/
theorem stop_clears_state_c3 (s : TimerW) (h : s.isRunning = true) :
    (stop s).2.1 = true ∧ (stop s).1.elapsedTime = 0 ∧
    (stop s).1.taskId = none ∧ (stop s).1.isRunning = false ∧
    (stop s).1.interval = false ∧ (stop s).1.store = none := by
  simp [stop, h, reset, clearState]

/-- C3 witness: `stop_clears_state_c3` applied to the concrete running
state reached by `start` at epoch 1000. -/
theorem stop_clears_state_c3_witness :
    (stop (start 1000 (some "T1") (construct none)).1).2.1 = true ∧
    (stop (start 1000 (some "T1") (construct none)).1).1.elapsedTime = 0 ∧
    (stop (start 1000 (some "T1") (construct none)).1).1.taskId = none ∧
    (stop (start 1000 (some "T1") (construct none)).1).1.isRunning = false ∧
    (stop (start 1000 (some "T1") (construct none)).1).1.interval = false ∧
    (stop (start 1000 (some "T1") (construct none)).1).1.store = none :=
  stop_clears_state_c3 (start 1000 (some "T1") (construct none)).1 (by decide)

/-- C4: `start` while already running, `pause`/`stop` while not running,
and `resume` while already running each return `false`, leave the entire
state (every field, and the store) unchanged, and invoke no notification
callback — the result is exactly `(s, false, [])`, and the total model
raises no error. -/
theorem precondition_noops_c4 (s : TimerW) (now : Int) (tid : Option String) :
    (s.isRunning = true →
      start now tid s = (s, false, []) ∧ resume now s = (s, false, [])) ∧
    (s.isRunning = false →
      pause now s = (s, false, []) ∧ stop s = (s, false, [])) := by
  constructor
  · intro h; constructor
    · simp [start, h]
    · simp [resume, h]
  · intro h; constructor
    · simp [pause, h]
    · simp [stop, h]

/-- C4 witness: `precondition_noops_c4` applied at a concrete running
state (for the start/resume no-ops) and at the concrete idle state (for
the pause/stop no-ops). -/
theorem precondition_noops_c4_witness :
    (start 50 none (start 0 (some "T1") (construct none)).1 =
        ((start 0 (some "T1") (construct none)).1, false, []) ∧
      resume 50 (start 0 (some "T1") (construct none)).1 =
        ((start 0 (some "T1") (construct none)).1, false, [])) ∧
    (pause 50 (construct none) = (construct none, false, []) ∧
      stop (construct none) = (construct none, false, [])) :=
  ⟨(precondition_noops_c4 (start 0 (some "T1") (construct none)).1 50 none).1 (by decide),
   (precondition_noops_c4 (construct none) 50 none).2 (by decide)⟩

end TimerJs

namespace TimerJs

/-- A tick never changes `startTime`. -/
theorem tick_startTime (now : Int) (s : TimerW) :
    (tick now s).1.startTime = s.startTime := rfl

/-- A tick recomputes `elapsedTime` as `now − startTime`. -/
theorem tick_elapsed (now : Int) (s : TimerW) :
    (tick now s).1.elapsedTime = now - s.startTime.getD 0 := rfl

/-- The successive `elapsedMs` values computed by the recurring tick
callback firing at the given instants. -/
def ticksElapsed : TimerW → List Int → List Int
  | _, [] => []
  | s, t :: ts => (tick t s).1.elapsedTime :: ticksElapsed (tick t s).1 ts

/-- Every tick fired at or after the instant encoded in `startTime`
yields an elapsed value at least `E`. -/
theorem ticksElapsed_floor (E now : Int) (ts : List Int) (s0 : TimerW)
    (hst : s0.startTime = some (now - E)) (hts : ∀ t ∈ ts, now ≤ t) :
    ∀ v ∈ ticksElapsed s0 ts, E ≤ v := by
  induction ts generalizing s0 with
  | nil => intro v hv; simp [ticksElapsed] at hv
  | cons t ts ih =>
    intro v hv
    rw [ticksElapsed, List.mem_cons] at hv
    rcases hv with hv | hv
    · rw [hv, tick_elapsed, hst]
      have := hts t (by simp)
      simp [Option.getD]
      omega
    · exact ih (tick t s0).1 (by rw [tick_startTime, hst])
        (fun u hu => hts u (List.mem_cons_of_mem t hu)) v hv

/-- C5: resuming a non-running timer at instant `now` leaves the frozen
`elapsedMs` value `E` unchanged and, because `start` sets
`startTimeEpochMs = now − E`, every `elapsedMs` value subsequently
computed by ticks at instants `≥ now` is at least `E`. -/
theorem resume_preserves_elapsed_floor_c5 (s : TimerW) (now : Int)
    (hrun : s.isRunning = false) (ts : List Int) (hts : ∀ t ∈ ts, now ≤ t) :
    (resume now s).1.elapsedTime = s.elapsedTime ∧
    (resume now s).1.startTime = some (now - s.elapsedTime) ∧
    ∀ v ∈ ticksElapsed (resume now s).1 ts, s.elapsedTime ≤ v := by
  have hres : (resume now s).1.elapsedTime = s.elapsedTime ∧
      (resume now s).1.startTime = some (now - s.elapsedTime) := by
    simp [resume, start, hrun, saveState]
  exact ⟨hres.1, hres.2,
    ticksElapsed_floor s.elapsedTime now ts (resume now s).1 hres.2 hts⟩

/-- C5 witness: `resume_preserves_elapsed_floor_c5` at a concrete paused
state with `elapsedMs = 3000`, resumed at epoch 5000, with ticks at 6000
and 7000. -/
theorem resume_preserves_elapsed_floor_c5_witness :
    (resume 5000 ⟨some 1000, 3000, false, false, some "T1", none⟩).1.elapsedTime =
      (⟨some 1000, 3000, false, false, some "T1", none⟩ : TimerW).elapsedTime ∧
    (resume 5000 ⟨some 1000, 3000, false, false, some "T1", none⟩).1.startTime =
      some (5000 - (⟨some 1000, 3000, false, false, some "T1", none⟩ : TimerW).elapsedTime) ∧
    ∀ v ∈ ticksElapsed (resume 5000 ⟨some 1000, 3000, false, false, some "T1", none⟩).1
        [6000, 7000],
      (⟨some 1000, 3000, false, false, some "T1", none⟩ : TimerW).elapsedTime ≤ v :=
  resume_preserves_elapsed_floor_c5 ⟨some 1000, 3000, false, false, some "T1", none⟩
    5000 (by decide) [6000, 7000] (by decide)

/-- C6 (counterexample): the state reached from the initial idle timer by
the single public call `resume()` at epoch 100 has `running = true` with
`taskId = null` — `resume` delegates to `start(this.taskId)` without
checking for a Paused state, so the claimed invariant fails on a
reachable state. -/
theorem taskId_invariant_c6_counterexample :
    (resume 100 (construct none)).1.isRunning = true ∧
    (resume 100 (construct none)).1.taskId = none := by
  decide

/-- C6 (amended): in every state reachable when `start` is only invoked
with a non-null taskId and `resume` only in a Paused state
(`running = false`, `elapsedMs > 0`), `taskId` is non-null whenever
`running = true` or the timer holds retained state (`elapsedMs ≠ 0` or
`startTimeEpochMs ≠ null`), and a null `taskId` occurs only with the
fully cleared idle fields — i.e. `taskId` and the retained state are
cleared together, which only `reset`/`stop` do. -/
theorem taskId_invariant_c6_amended (s : TimerW) (h : ReachG s) :
    ((s.isRunning = true ∨ s.elapsedTime ≠ 0 ∨ s.startTime ≠ none) → s.taskId ≠ none) ∧
    (s.taskId = none → s.isRunning = false ∧ s.elapsedTime = 0 ∧ s.startTime = none) := by
  have key := reachG_taskId_inv s h
  refine ⟨?_, key⟩
  intro hc hn
  obtain ⟨h1, h2, h3⟩ := key hn
  rcases hc with hc | hc | hc
  · rw [h1] at hc; exact Bool.false_ne_true hc
  · exact hc h2
  · exact hc h3

/-- C6 witness: `taskId_invariant_c6_amended` at the running state
reached by `start` at epoch 1000 with taskId `"T1"`. -/
theorem taskId_invariant_c6_witness :
    (((start 1000 (some "T1") (construct none)).1.isRunning = true ∨
        (start 1000 (some "T1") (construct none)).1.elapsedTime ≠ 0 ∨
        (start 1000 (some "T1") (construct none)).1.startTime ≠ none) →
      (start 1000 (some "T1") (construct none)).1.taskId ≠ none) ∧
    ((start 1000 (some "T1") (construct none)).1.taskId = none →
      (start 1000 (some "T1") (construct none)).1.isRunning = false ∧
      (start 1000 (some "T1") (construct none)).1.elapsedTime = 0 ∧
      (start 1000 (some "T1") (construct none)).1.startTime = none) :=
  taskId_invariant_c6_amended (start 1000 (some "T1") (construct none)).1
    (ReachG.startG 1000 "T1" (construct none) ReachG.initG)

/-- C7: in every state reachable by the public operations — construction
(whose restore-on-load path leaves the timer idle), `start`, `pause`,
`resume`, `stop`, `reset`, and ticks (which only fire while the interval
callback is scheduled) — `running = true` exactly when a recurring tick
interval handle is held. -/
theorem running_iff_interval_c7 (s : TimerW) (h : Reach s) :
    s.isRunning = true ↔ s.interval = true := by
  rw [reach_running_eq_interval s h]

/-- C7 witness: `running_iff_interval_c7` at the running state reached
by `start` at epoch 1000. -/
theorem running_iff_interval_c7_witness :
    (start 1000 (some "T1") (construct none)).1.isRunning = true ↔
      (start 1000 (some "T1") (construct none)).1.interval = true :=
  running_iff_interval_c7 (start 1000 (some "T1") (construct none)).1
    (Reach.startS 1000 (some "T1") (construct none) Reach.initS)

end TimerJs

namespace TimerJs

/-- C8: whenever the store read yields nothing — the item is absent, the
read raises, or the record is corrupt (all of which `LocalStorage.get`
turns into the `null` default) — or yields a snapshot with
`running = false` or age `now − savedTimestamp ≥ 24` hours, `loadState`
returns the state completely unchanged: no field adopted, no interval
scheduled, and no error raised (the model is total). -/
theorem loadState_stale_idle_c8 (now : Int) (s : TimerW)
    (raw : Option (Except String Snapshot))
    (h : ∀ st, localStorageGet raw = some st →
      st.isRunning = false ∨ 24 * 60 * 60 * 1000 ≤ now - st.timestamp) :
    loadState now raw s = s := by
  unfold loadState
  cases hr : localStorageGet raw with
  | none => rfl
  | some st =>
    rcases h st hr with h1 | h1
    · simp [loadStateCore, h1]
    · by_cases hrun : st.isRunning
      · simp only [loadStateCore, hrun, if_true]
        rw [if_neg (by omega)]
      · simp [loadStateCore, hrun]

/-- C8 witness: `loadState_stale_idle_c8` on the idle timer with a
successfully read snapshot that is running but 200 000 000 ms
(≥ 24 h) old. -/
theorem loadState_stale_idle_c8_witness :
    loadState 200000000 (some (Except.ok ⟨some 1000, 3000, true, some "T1", 0⟩))
      (construct none) = construct none :=
  loadState_stale_idle_c8 200000000 (construct none)
    (some (Except.ok ⟨some 1000, 3000, true, some "T1", 0⟩))
    (by intro st hst
        simp [localStorageGet] at hst
        rw [← hst]
        decide)

/-- C9: for every non-negative milliseconds input there are hour, minute
and second counts with `minutes < 60`, `seconds < 60` and
`h·3600 + m·60 + s = ⌊ms/1000⌋` such that `formatTime` renders exactly
those three counts zero-padded to (at least) two digits and joined by
colons; hours are unbounded — 100 hours renders as `"100:00:00"` with no
day rollover — and `formatTime 3661000 = "01:01:01"`. -/
theorem formatTime_hms_c9 :
    (∀ ms : Nat, ∃ h m s : Nat,
      h * 3600 + m * 60 + s = ms / 1000 ∧ m < 60 ∧ s < 60 ∧
      formatTime ms = padStart 2 '0' (toString h) ++ ":" ++
        padStart 2 '0' (toString m) ++ ":" ++ padStart 2 '0' (toString s)) ∧
    formatTime 3661000 = "01:01:01" ∧
    formatTime 360000000 = "100:00:00" := by
  refine ⟨?_, by decide, by decide⟩
  intro ms
  refine ⟨ms / 1000 / 3600, ms / 1000 % 3600 / 60, ms / 1000 % 60, ?_, ?_, ?_, rfl⟩
  · omega
  · omega
  · omega

/-- C10: `resume()` on the idle constructed timer (never started:
`running = false`, `elapsedMs = 0`, `taskId = null`) is not rejected: it
returns `true` and yields a Running state with `taskId = null`,
`startTimeEpochMs = now`, `elapsedMs = 0`, a scheduled interval, and
elapsed time counted from zero — a later tick at instant `u` computes
`u − now`. -/
theorem resume_from_idle_c10 (now : Int) :
    (resume now (construct none)).2.1 = true ∧
    (resume now (construct none)).1.isRunning = true ∧
    (resume now (construct none)).1.taskId = none ∧
    (resume now (construct none)).1.startTime = some now ∧
    (resume now (construct none)).1.elapsedTime = 0 ∧
    (resume now (construct none)).1.interval = true ∧
    ∀ u : Int, (tick u (resume now (construct none)).1).1.elapsedTime = u - now := by
  refine ⟨?_, ?_, ?_, ?_, ?_, ?_, ?_⟩ <;>
    simp [resume, start, construct, resumeTimer, saveState, tick]

end TimerJs
